import Mathlib

/-!
Shallow embedding of the sbom-scanner CLI (src/main.go).

The program stages a Maven POM descriptor into an output directory and then
runs four external-tool stages in a fixed order: dependency tree, effective
POM, CycloneDX SBOM generation, and an OSV vulnerability scan.  External
subprocesses and the filesystem are modelled abstractly: each fallible
operating-system or subprocess step is an oracle input (a `Bool` or an
`Option RunError`), and a directory or filesystem is modelled by the list of
paths it contains.  Functions return an `Option` error, mirroring Go's
`error` return value (`none` = `nil` = success), and additionally emit a
trace of events so that ordering properties ("the scanner is never invoked",
"creation happens before launch") can be stated.

`filepath.Abs` is modelled as the identity on paths: the program only ever
re-bases relative paths against a fixed working directory, which does not
affect any property below; its (practically unreachable) error branch is not
modelled.
-/

/-- Result of `cmd.Run()` / `cmd.CombinedOutput()` in Go, seen through the
`error` value: `none` is a zero exit; `exitError c` is an `*exec.ExitError`
with `ExitCode() = c`; `launchFailure` is any other error (e.g. the binary
was not found). -/
inductive RunError : Type
  | exitError (code : Int)
  | launchFailure
deriving DecidableEq, Repr

/-- Embeds `isExitStatus1` (src/main.go:227-232): true exactly when the error
is an `*exec.ExitError` whose exit code is 1. -/
def isExitStatus1 : Option RunError → Bool
  | some (RunError.exitError c) => c = 1
  | _ => false

/-- Embeds the scan of `filepath.Ext`: walking the path backwards, collect
characters until the first dot (returning the dot and what followed it) or
until a path separator or the start of the string (returning nothing). -/
def extRevAux (acc : List Char) : List Char → List Char
  | [] => []
  | c :: rest =>
    if c = '/' then []
    else if c = '.' then '.' :: acc
    else extRevAux (c :: acc) rest

/-- Embeds Go's `filepath.Ext`: the suffix beginning at the final dot in the
final slash-separated element of the path, or the empty string if there is
no dot. -/
def filepathExt (p : String) : String :=
  String.mk (extRevAux [] p.data.reverse)

/-- Embeds Go's `strings.TrimSuffix`: removes the given suffix when present.
Computed over character lists so that it evaluates by `decide`. -/
def trimSuffix (s suf : String) : String :=
  if suf.data.isSuffixOf s.data then
    String.mk (s.data.take (s.data.length - suf.data.length))
  else s

/-- Embeds the report-path derivation in `runOSVScanner` (src/main.go:187):
`strings.TrimSuffix(sbomPath, filepath.Ext(sbomPath)) + "-vulnerabilities.json"`. -/
def reportPath (sbomPath : String) : String :=
  trimSuffix sbomPath (filepathExt sbomPath) ++ "-vulnerabilities.json"

/-- Observable events of the vulnerability-scan stage, in the order the code
performs them: the `os.Stat` existence check of the SBOM, the `os.Create` of
the report file, the `cmd.Run()` of the scanner, and the `logger.Warnf` call
on advisory findings. -/
inductive OsvEv : Type
  | statSbom
  | createReport
  | launchScanner
  | warnVulns
deriving DecidableEq, Repr

/-- The distinct error returns of `runOSVScanner`, one constructor per
distinct `fmt.Errorf` site (src/main.go:175-224). -/
inductive OsvError : Type
  | sbomNotFound (path : String)
  | createOutputFailed
  | vulnerabilitiesFound (path : String)
  | scannerFailed (e : RunError)
deriving DecidableEq, Repr

/-- Embeds `runOSVScanner` (src/main.go:175-224).  Inputs: the filesystem as
the list of existing paths, the SBOM path, the `exitOnVuln` flag, and the
oracle outcomes of `os.Create` and of running the scanner.  Output: the event
trace, the resulting filesystem, and the Go `error` return value.
The code stats the SBOM path and fails if it does not exist; creates the
report file (failure is fatal); runs the scanner; then branches on
`isExitStatus1`: exit 1 with `exitOnVuln` is fatal, exit 1 without it logs a
warning and succeeds, any other error is fatal, and a zero exit succeeds. -/
def runOSVScanner (fs : List String) (sbomPath : String) (exitOnVuln : Bool)
    (createOk : Bool) (scanErr : Option RunError) :
    List OsvEv × List String × Option OsvError :=
  if fs.contains sbomPath then
    let rp := reportPath sbomPath
    if createOk then
      let fs' := if fs.contains rp then fs else fs.concat rp
      if isExitStatus1 scanErr then
        if exitOnVuln then
          ([OsvEv.statSbom, OsvEv.createReport, OsvEv.launchScanner], fs',
            some (OsvError.vulnerabilitiesFound rp))
        else
          ([OsvEv.statSbom, OsvEv.createReport, OsvEv.launchScanner, OsvEv.warnVulns], fs',
            none)
      else
        match scanErr with
        | some e =>
          ([OsvEv.statSbom, OsvEv.createReport, OsvEv.launchScanner], fs',
            some (OsvError.scannerFailed e))
        | none =>
          ([OsvEv.statSbom, OsvEv.createReport, OsvEv.launchScanner], fs', none)
    else
      ([OsvEv.statSbom, OsvEv.createReport], fs, some OsvError.createOutputFailed)
  else
    ([OsvEv.statSbom], fs, some (OsvError.sbomNotFound sbomPath))

/-- The distinct error returns of `generateCycloneDX`, one constructor per
distinct `fmt.Errorf` site (src/main.go:128-173): `os.MkdirAll` of the
scratch `target` directory failed; the Maven CycloneDX subprocess failed
(non-zero exit or launch failure); `os.Rename` of `target/bom.xml` to the
final SBOM path failed. -/
inductive CdxError : Type
  | createTargetDirFailed
  | generationFailed (e : RunError)
  | moveFailed
deriving DecidableEq, Repr

/-- Observable events of the SBOM-generation stage, in code order: create the
scratch directory, run the Maven plugin, rename the produced BOM, remove the
scratch directory, and the `logger.Warnf` on a failed removal. -/
inductive CdxEv : Type
  | mkdirTarget
  | runMvn
  | renameBom
  | removeTarget
  | warnCleanup
deriving DecidableEq, Repr

/-- Embeds `generateCycloneDX` (src/main.go:128-173).  Oracle inputs:
`mkdirOk` is the outcome of `os.MkdirAll(targetDir)`; `mvnErr` is the result
of the Maven CycloneDX subprocess; `bomProduced` says whether the subprocess
left `target/bom.xml` in place (the conventional output name in the scratch
subdirectory); `renameOk` covers any other `os.Rename` failure; `removeOk`
is the outcome of `os.RemoveAll(targetDir)`.  The code makes the scratch
directory, runs the subprocess (any error is fatal), renames
`target/bom.xml` to the output path (failure — in particular a missing
source file — is fatal), then removes the scratch directory, logging a
warning and still returning `nil` if removal fails. -/
def generateCycloneDX (mkdirOk : Bool) (mvnErr : Option RunError)
    (bomProduced renameOk removeOk : Bool) : List CdxEv × Option CdxError :=
  if mkdirOk then
    match mvnErr with
    | some e => ([CdxEv.mkdirTarget, CdxEv.runMvn], some (CdxError.generationFailed e))
    | none =>
      if bomProduced && renameOk then
        if removeOk then
          ([CdxEv.mkdirTarget, CdxEv.runMvn, CdxEv.renameBom, CdxEv.removeTarget], none)
        else
          ([CdxEv.mkdirTarget, CdxEv.runMvn, CdxEv.renameBom, CdxEv.removeTarget,
            CdxEv.warnCleanup], none)
      else
        ([CdxEv.mkdirTarget, CdxEv.runMvn, CdxEv.renameBom], some CdxError.moveFailed)
  else
    ([CdxEv.mkdirTarget], some CdxError.createTargetDirFailed)

/-- Embeds `cleanDirectory` (src/main.go:437-453) at the level of the
directory listing: `os.ReadDir` yields the current entries and the loop
removes each one with `os.RemoveAll`.  The directory is the list of its
entry names; removing an entry erases it from the listing. -/
def cleanDirectory (entries : List String) : List String :=
  entries.foldl (fun dir e => dir.erase e) entries

/-- Embeds the artifact-staging step of `main` (src/main.go:342-361) on the
output directory's listing: `os.MkdirAll` ensures the directory exists (its
listing is the input), `cleanDirectory` removes every entry, and `copyFile`
creates `pom.xml` inside it (creating, not duplicating, the entry). -/
def stageWorkspace (listing : List String) : List String :=
  let cleaned := cleanDirectory listing
  if cleaned.contains "pom.xml" then cleaned else cleaned.concat "pom.xml"

/-- Observable events of the orchestrator in `main`: a stage's action being
run (the single external-tool invocation of that stage), and a progress-bar
update `bar.Set(n)`. -/
inductive Ev : Type
  | runStage (name : String)
  | barSet (n : Nat)
deriving DecidableEq, Repr

/-- Final state of a run of `main`, determining the process exit code:
`logger.Fatalf` exits non-zero, both during setup and when a stage fails
(carrying the failing stage's name and its underlying error). -/
inductive MainExit (ε : Type) : Type
  | success
  | setupFailed (msg : String)
  | stageFailed (stage : String) (e : ε)
deriving DecidableEq, Repr

/-- Process exit code of a finished run: `logger.Fatalf` calls `os.Exit(1)`;
a completed `main` returns normally with code 0. -/
def exitCode {ε : Type} : MainExit ε → Nat
  | MainExit.success => 0
  | MainExit.setupFailed _ => 1
  | MainExit.stageFailed _ _ => 1

/-- The `tasks` slice of `main` (src/main.go:363-392): the four stage names
with their progress weights, in declared order. -/
def stageTasks : List (String × Nat) :=
  [("Analyzing Dependencies", 20),
   ("Generating Effective POM", 20),
   ("Generating CycloneDX SBOM", 30),
   ("Scanning for Vulnerabilities", 30)]

/-- The four stage names in declared order. -/
def stageNames : List String := stageTasks.map Prod.fst

/-- Embeds the `for _, task := range tasks` loop of `main`
(src/main.go:419-428).  `act i` is the Go `error` returned by task `i`'s
action (`none` = `nil`).  On an error the loop calls `logger.Fatalf` with the
task name and the error and the process exits; otherwise `completedProgress`
grows by the task's weight and `bar.Set` is called.  Returns the event trace
and, when some task failed, its name with its error. -/
def taskLoop {ε : Type} (act : Nat → Option ε) :
    List (String × Nat) → Nat → Nat → List Ev × Option (String × ε)
  | [], _, _ => ([], none)
  | (name, wt) :: rest, i, prog =>
    match act i with
    | some e => ([Ev.runStage name], some (name, e))
    | none =>
      let r := taskLoop act rest (i + 1) (prog + wt)
      (Ev.runStage name :: Ev.barSet (prog + wt) :: r.1, r.2)

/-- Oracle outcomes of the setup steps of `main` before the task loop
(src/main.go:338-361): whether the POM file exists (`os.Stat`), and whether
`os.MkdirAll`, `cleanDirectory` and `copyFile` succeed. -/
structure SetupWorld : Type where
  pomExists : Bool
  mkdirOk : Bool
  cleanOk : Bool
  copyOk : Bool
deriving DecidableEq, Repr

/-- Embeds a scan run of `main` (src/main.go:297-434, with `-h` and `-c`
absent, which return before this point).  Setup: stat the POM file, create
the output directory, clean it, copy the POM in; each failure is a
`logger.Fatalf` before any stage runs.  Then `bar.Set(10)` and the task
loop.  `act i` is the Go `error` of stage `i`'s action. -/
def mainRun {ε : Type} (w : SetupWorld) (act : Nat → Option ε) :
    List Ev × MainExit ε :=
  if w.pomExists = false then ([], MainExit.setupFailed "POM file not found")
  else if w.mkdirOk = false then ([], MainExit.setupFailed "Failed to create directory")
  else if w.cleanOk = false then ([], MainExit.setupFailed "Failed to clean directory")
  else if w.copyOk = false then ([], MainExit.setupFailed "Failed to copy POM file")
  else
    let r := taskLoop act stageTasks 0 0
    (Ev.barSet 10 :: r.1,
      match r.2 with
      | some (name, e) => MainExit.stageFailed name e
      | none => MainExit.success)

/-- The stage names actually run, in order, read off a trace. -/
def runEvents (tr : List Ev) : List String :=
  tr.filterMap (fun ev => match ev with | Ev.runStage n => some n | _ => none)

/-- The successive `bar.Set` arguments, in order, read off a trace. -/
def barSets (tr : List Ev) : List Nat :=
  tr.filterMap (fun ev => match ev with | Ev.barSet n => some n | _ => none)

/-- C1: exit-code classification of the vulnerability-scan stage.  With the
SBOM present and the report file created: a zero scanner exit yields stage
success; exit 1 with `exitOnVuln = false` is advisory (a warning event is
logged, the stage returns success, and a pipeline whose last stage returns
that result ends in overall success); exit 1 with `exitOnVuln = true` is a
fatal stage error; and any other non-zero exit or launch failure (anything
`isExitStatus1` rejects) is a fatal stage error for either flag value. -/
theorem osv_exit_code_classification (fs : List String) (p : String) (eov : Bool)
    (hp : fs.contains p = true) :
    ((runOSVScanner fs p eov true none).2.2 = none)
    ∧ ((runOSVScanner fs p false true (some (RunError.exitError 1))).2.2 = none
       ∧ OsvEv.warnVulns ∈ (runOSVScanner fs p false true (some (RunError.exitError 1))).1
       ∧ (mainRun ⟨true, true, true, true⟩ (fun i =>
            if i = 3 then (runOSVScanner fs p false true (some (RunError.exitError 1))).2.2
            else none)).2 = MainExit.success)
    ∧ ((runOSVScanner fs p true true (some (RunError.exitError 1))).2.2 =
        some (OsvError.vulnerabilitiesFound (reportPath p)))
    ∧ (∀ e : RunError, isExitStatus1 (some e) = false →
        (runOSVScanner fs p eov true (some e)).2.2 = some (OsvError.scannerFailed e)) := by
  have hp' : p ∈ fs := by simpa using hp
  refine ⟨?_, ⟨?_, ?_, ?_⟩, ?_, ?_⟩
  · simp [runOSVScanner, hp', isExitStatus1]
  · simp [runOSVScanner, hp', isExitStatus1]
  · simp [runOSVScanner, hp', isExitStatus1]
  · simp [mainRun, taskLoop, stageTasks, runOSVScanner, hp', isExitStatus1]
  · simp [runOSVScanner, hp', isExitStatus1]
  · intro e he
    cases e with
    | exitError c => simp [runOSVScanner, hp', he]
    | launchFailure => simp [runOSVScanner, hp', isExitStatus1]

/-- Witness for C1 at a concrete input. -/
theorem osv_exit_code_classification_witness :
    (["out/sbom.xml"].contains "out/sbom.xml" = true)
    ∧ (((runOSVScanner ["out/sbom.xml"] "out/sbom.xml" false true none).2.2 = none)
    ∧ ((runOSVScanner ["out/sbom.xml"] "out/sbom.xml" false true
          (some (RunError.exitError 1))).2.2 = none
       ∧ OsvEv.warnVulns ∈ (runOSVScanner ["out/sbom.xml"] "out/sbom.xml" false true
          (some (RunError.exitError 1))).1
       ∧ (mainRun ⟨true, true, true, true⟩ (fun i =>
            if i = 3 then (runOSVScanner ["out/sbom.xml"] "out/sbom.xml" false true
              (some (RunError.exitError 1))).2.2
            else none)).2 = MainExit.success)
    ∧ ((runOSVScanner ["out/sbom.xml"] "out/sbom.xml" true true
          (some (RunError.exitError 1))).2.2 =
        some (OsvError.vulnerabilitiesFound (reportPath "out/sbom.xml")))
    ∧ (∀ e : RunError, isExitStatus1 (some e) = false →
        (runOSVScanner ["out/sbom.xml"] "out/sbom.xml" false true (some e)).2.2 =
          some (OsvError.scannerFailed e))) :=
  ⟨by decide, osv_exit_code_classification ["out/sbom.xml"] "out/sbom.xml" false (by decide)⟩

/-- C9: when the SBOM path does not exist, the vulnerability-scan stage fails
with the dedicated SBOM-not-found error — a constructor distinct from every
scanner-process failure — and the scanner process is never launched. -/
theorem osv_missing_sbom_no_launch (fs : List String) (p : String) (eov cOk : Bool)
    (se : Option RunError) (h : fs.contains p = false) :
    (runOSVScanner fs p eov cOk se).2.2 = some (OsvError.sbomNotFound p)
    ∧ (∀ e : RunError, OsvError.sbomNotFound p ≠ OsvError.scannerFailed e)
    ∧ (runOSVScanner fs p eov cOk se).1.contains OsvEv.launchScanner = false := by
  have h' : p ∉ fs := by simpa using h
  refine ⟨?_, ?_, ?_⟩
  · simp [runOSVScanner, h']
  · intro e; exact fun hc => OsvError.noConfusion hc
  · simp [runOSVScanner, h']

/-- Witness for C9 at a concrete input. -/
theorem osv_missing_sbom_no_launch_witness :
    ((["deps-tree.txt"] : List String).contains "out/sbom.xml" = false)
    ∧ ((runOSVScanner ["deps-tree.txt"] "out/sbom.xml" true true none).2.2 =
        some (OsvError.sbomNotFound "out/sbom.xml")
    ∧ (∀ e : RunError, OsvError.sbomNotFound "out/sbom.xml" ≠ OsvError.scannerFailed e)
    ∧ (runOSVScanner ["deps-tree.txt"] "out/sbom.xml" true true none).1.contains
        OsvEv.launchScanner = false) :=
  ⟨by decide,
    osv_missing_sbom_no_launch ["deps-tree.txt"] "out/sbom.xml" true true none (by decide)⟩

/-- C10, counterexample: the claim says the report file exists whenever the
stage proceeds past the SBOM-existence check, even when the stage ends in a
fatal error.  But when `os.Create` of the report file itself fails, the stage
has passed the SBOM check (it attempted the creation and returns the
create-failure error, not SBOM-not-found), yet no report file exists. -/
theorem osv_report_after_stat_cex :
    ((runOSVScanner ["scan-results/sbom.xml"] "scan-results/sbom.xml" false false none).2.2 =
        some OsvError.createOutputFailed)
    ∧ ((runOSVScanner ["scan-results/sbom.xml"] "scan-results/sbom.xml" false false
        none).1.contains OsvEv.createReport = true)
    ∧ ((runOSVScanner ["scan-results/sbom.xml"] "scan-results/sbom.xml" false false
        none).2.1.contains (reportPath "scan-results/sbom.xml") = false) := by
  decide

/-- C10 as amended: the report file (the SBOM path with its extension
replaced by the "-vulnerabilities.json" suffix) is created before the
scanner process is launched — every trace that launches the scanner begins
with the SBOM stat followed by the report creation — and whenever the stage
proceeds past the SBOM-existence check and the report-file creation
succeeds, the report file exists in the resulting filesystem, for every
scanner outcome (launch failure, fatal exit, advisory exit 1, or success)
and either flag value. -/
theorem osv_report_created_before_launch (fs : List String) (p : String) (eov cOk : Bool)
    (se : Option RunError) (hp : fs.contains p = true) :
    ((runOSVScanner fs p eov cOk se).1.contains OsvEv.launchScanner = true →
      (runOSVScanner fs p eov cOk se).1.take 3 =
        [OsvEv.statSbom, OsvEv.createReport, OsvEv.launchScanner])
    ∧ (cOk = true → reportPath p ∈ (runOSVScanner fs p eov cOk se).2.1) := by
  have hp' : p ∈ fs := by simpa using hp
  cases cOk with
  | false =>
    refine ⟨?_, by simp⟩
    simp [runOSVScanner, hp']
  | true =>
    refine ⟨?_, ?_⟩
    · cases h1 : isExitStatus1 se with
      | true =>
        cases eov <;> simp [runOSVScanner, hp', h1]
      | false =>
        cases se with
        | none => simp [runOSVScanner, hp', h1]
        | some e => simp [runOSVScanner, hp', h1]
    · intro _
      cases h1 : isExitStatus1 se with
      | true =>
        cases eov <;> by_cases hr : reportPath p ∈ fs <;>
          simp [runOSVScanner, hp', h1, hr]
      | false =>
        cases se with
        | none => by_cases hr : reportPath p ∈ fs <;> simp [runOSVScanner, hp', h1, hr]
        | some e => by_cases hr : reportPath p ∈ fs <;> simp [runOSVScanner, hp', h1, hr]

/-- C4: in the SBOM-generation stage, when the Maven subprocess exits zero
but the expected `target/bom.xml` is absent, the stage fails with the
move-failure error, a constructor distinct from every subprocess-failure
error, rather than reporting success — for any rename and removal oracle
outcomes. -/
theorem cyclonedx_missing_bom_fatal (renameOk removeOk : Bool) :
    (generateCycloneDX true none false renameOk removeOk).2 = some CdxError.moveFailed
    ∧ (∀ e : RunError,
        (some CdxError.moveFailed : Option CdxError) ≠ some (CdxError.generationFailed e)) := by
  refine ⟨by simp [generateCycloneDX], ?_⟩
  intro e hc
  exact CdxError.noConfusion (Option.some.inj hc)

/-- C7: in the SBOM-generation stage, when the subprocess succeeds, the BOM
is produced and moved, but removal of the scratch `target` directory fails,
a cleanup warning is logged and the stage still returns success; feeding
that stage result into the pipeline, the overall run still succeeds. -/
theorem cyclonedx_cleanup_failure_nonfatal :
    (generateCycloneDX true none true true false).2 = none
    ∧ (generateCycloneDX true none true true false).1.contains CdxEv.warnCleanup = true
    ∧ (mainRun ⟨true, true, true, true⟩ (fun i =>
        if i = 2 then (generateCycloneDX true none true true false).2 else none)).2 =
      MainExit.success := by
  decide

/-- Helper: iterating over a directory listing and erasing every entry from
the listing empties it, whatever the listing's contents. -/
theorem foldl_erase_self (l : List String) :
    List.foldl (fun dir e => dir.erase e) l l = [] := by
  induction l with
  | nil => rfl
  | cons a t ih => simpa [List.erase_cons_head] using ih

/-- Helper: every staging run leaves the output directory containing exactly
the staged descriptor name. -/
theorem stageWorkspace_eq (l : List String) : stageWorkspace l = ["pom.xml"] := by
  simp [stageWorkspace, cleanDirectory, foldl_erase_self]

/-- C5: artifact staging is idempotent on the output directory's listing:
staging a second time over the directory produced by a first staging run
yields the same listing, and in fact any staging run over a non-empty
listing yields exactly the staged descriptor name. -/
theorem staging_idempotent (listing : List String) (h : listing ≠ []) :
    stageWorkspace (stageWorkspace listing) = stageWorkspace listing
    ∧ stageWorkspace listing = ["pom.xml"] := by
  have _hne := h
  exact ⟨by rw [stageWorkspace_eq, stageWorkspace_eq], stageWorkspace_eq listing⟩

/-- Witness for C5 at a concrete non-empty directory listing. -/
theorem staging_idempotent_witness :
    ((["old-report.json", "stale-dir"] : List String) ≠ [])
    ∧ (stageWorkspace (stageWorkspace ["old-report.json", "stale-dir"]) =
        stageWorkspace ["old-report.json", "stale-dir"]
    ∧ stageWorkspace ["old-report.json", "stale-dir"] = ["pom.xml"]) :=
  ⟨by decide, staging_idempotent ["old-report.json", "stale-dir"] (by decide)⟩

/-- C6: when the supplied descriptor path does not exist, the run ends in a
setup failure with a non-zero exit code and no stage ever runs — in
particular no external tool is invoked (the trace holds no stage events). -/
theorem missing_descriptor_exits_early {ε : Type} (w : SetupWorld) (act : Nat → Option ε)
    (h : w.pomExists = false) :
    (mainRun w act).2 = MainExit.setupFailed "POM file not found"
    ∧ exitCode (mainRun w act).2 ≠ 0
    ∧ runEvents (mainRun w act).1 = [] := by
  simp [mainRun, h, exitCode, runEvents]

/-- Witness for C6 at a concrete input. -/
theorem missing_descriptor_exits_early_witness :
    ((⟨false, true, true, true⟩ : SetupWorld).pomExists = false)
    ∧ ((mainRun (ε := Unit) ⟨false, true, true, true⟩ (fun _ => none)).2 =
        MainExit.setupFailed "POM file not found"
    ∧ exitCode (mainRun (ε := Unit) ⟨false, true, true, true⟩ (fun _ => none)).2 ≠ 0
    ∧ runEvents (mainRun (ε := Unit) ⟨false, true, true, true⟩ (fun _ => none)).1 = []) :=
  ⟨by decide,
    missing_descriptor_exits_early ⟨false, true, true, true⟩ (fun _ => none) (by decide)⟩

/-- C2: in every run that reaches the pipeline (all setup steps succeeded),
when every stage action succeeds the trace is exactly the fixed sequence —
each of the four stages run once, in declared order, with the progress
updates interleaved — and for every assignment of stage outcomes the stages
actually run form an initial segment of the declared order, so no stage is
ever skipped, reordered, or attempted more than once. -/
theorem pipeline_fixed_order {ε : Type} (w : SetupWorld) (act : Nat → Option ε)
    (hpe : w.pomExists = true) (hmk : w.mkdirOk = true)
    (hcl : w.cleanOk = true) (hcp : w.copyOk = true)
    (hall : ∀ i, i < 4 → act i = none) :
    ((mainRun w act).1 =
      [Ev.barSet 10,
       Ev.runStage "Analyzing Dependencies", Ev.barSet 20,
       Ev.runStage "Generating Effective POM", Ev.barSet 40,
       Ev.runStage "Generating CycloneDX SBOM", Ev.barSet 70,
       Ev.runStage "Scanning for Vulnerabilities", Ev.barSet 100]
      ∧ (mainRun w act).2 = MainExit.success)
    ∧ (∀ act' : Nat → Option ε, ∃ k, k ≤ 4 ∧
        runEvents (mainRun w act').1 = stageNames.take k) := by
  constructor
  · have h0 := hall 0 (by omega)
    have h1 := hall 1 (by omega)
    have h2 := hall 2 (by omega)
    have h3 := hall 3 (by omega)
    constructor <;>
      simp [mainRun, taskLoop, stageTasks, hpe, hmk, hcl, hcp, h0, h1, h2, h3]
  · intro act'
    cases h0 : act' 0 with
    | some e0 =>
      exact ⟨1, by omega, by
        simp [mainRun, taskLoop, stageTasks, stageNames, runEvents, hpe, hmk, hcl, hcp, h0]⟩
    | none =>
      cases h1 : act' 1 with
      | some e1 =>
        exact ⟨2, by omega, by
          simp [mainRun, taskLoop, stageTasks, stageNames, runEvents, hpe, hmk, hcl, hcp,
            h0, h1]⟩
      | none =>
        cases h2 : act' 2 with
        | some e2 =>
          exact ⟨3, by omega, by
            simp [mainRun, taskLoop, stageTasks, stageNames, runEvents, hpe, hmk, hcl, hcp,
              h0, h1, h2]⟩
        | none =>
          cases h3 : act' 3 with
          | some e3 =>
            exact ⟨4, by omega, by
              simp [mainRun, taskLoop, stageTasks, stageNames, runEvents, hpe, hmk, hcl, hcp,
                h0, h1, h2, h3]⟩
          | none =>
            exact ⟨4, by omega, by
              simp [mainRun, taskLoop, stageTasks, stageNames, runEvents, hpe, hmk, hcl, hcp,
                h0, h1, h2, h3]⟩

/-- Witness for C2 at a concrete input. -/
theorem pipeline_fixed_order_witness :
    ((⟨true, true, true, true⟩ : SetupWorld).pomExists = true
      ∧ (⟨true, true, true, true⟩ : SetupWorld).mkdirOk = true
      ∧ (⟨true, true, true, true⟩ : SetupWorld).cleanOk = true
      ∧ (⟨true, true, true, true⟩ : SetupWorld).copyOk = true
      ∧ (∀ i, i < 4 → (fun _ => (none : Option Unit)) i = none))
    ∧ (((mainRun (ε := Unit) ⟨true, true, true, true⟩ (fun _ => none)).1 =
      [Ev.barSet 10,
       Ev.runStage "Analyzing Dependencies", Ev.barSet 20,
       Ev.runStage "Generating Effective POM", Ev.barSet 40,
       Ev.runStage "Generating CycloneDX SBOM", Ev.barSet 70,
       Ev.runStage "Scanning for Vulnerabilities", Ev.barSet 100]
      ∧ (mainRun (ε := Unit) ⟨true, true, true, true⟩ (fun _ => none)).2 = MainExit.success)
    ∧ (∀ act' : Nat → Option Unit, ∃ k, k ≤ 4 ∧
        runEvents (mainRun ⟨true, true, true, true⟩ act').1 = stageNames.take k)) :=
  ⟨⟨by decide, by decide, by decide, by decide, fun _ _ => rfl⟩,
    pipeline_fixed_order ⟨true, true, true, true⟩ (fun _ => none)
      (by decide) (by decide) (by decide) (by decide) (fun _ _ => rfl)⟩

/-- C3: when stage `k` returns a fatal error and every earlier stage
succeeded, the run ends with the failing stage's name paired with the
underlying error, the process exit code is non-zero, and the stages run are
exactly the first `k + 1` — nothing after the failure executes and nothing
is retried. -/
theorem pipeline_fail_fast {ε : Type} (act : Nat → Option ε) (k : Nat) (e : ε)
    (hk : k < 4) (hke : act k = some e) (hpre : ∀ j, j < k → act j = none) :
    (mainRun ⟨true, true, true, true⟩ act).2 = MainExit.stageFailed (stageNames.getD k "") e
    ∧ exitCode (mainRun ⟨true, true, true, true⟩ act).2 ≠ 0
    ∧ runEvents (mainRun ⟨true, true, true, true⟩ act).1 = stageNames.take (k + 1) := by
  interval_cases k
  · simp [mainRun, taskLoop, stageTasks, stageNames, runEvents, exitCode, hke]
  · have h0 := hpre 0 (by omega)
    simp [mainRun, taskLoop, stageTasks, stageNames, runEvents, exitCode, h0, hke]
  · have h0 := hpre 0 (by omega)
    have h1 := hpre 1 (by omega)
    simp [mainRun, taskLoop, stageTasks, stageNames, runEvents, exitCode, h0, h1, hke]
  · have h0 := hpre 0 (by omega)
    have h1 := hpre 1 (by omega)
    have h2 := hpre 2 (by omega)
    simp [mainRun, taskLoop, stageTasks, stageNames, runEvents, exitCode, h0, h1, h2, hke]

/-- Witness for C3 at a concrete input: the third stage fails. -/
theorem pipeline_fail_fast_witness :
    (2 < 4 ∧ (fun i => if i = 2 then some () else none) 2 = some ()
      ∧ (∀ j, j < 2 → (fun i => if i = 2 then some () else none) j = (none : Option Unit)))
    ∧ ((mainRun ⟨true, true, true, true⟩ (fun i => if i = 2 then some () else none)).2 =
        MainExit.stageFailed (stageNames.getD 2 "") ()
    ∧ exitCode
        (mainRun ⟨true, true, true, true⟩ (fun i => if i = 2 then some () else none)).2 ≠ 0
    ∧ runEvents
        (mainRun ⟨true, true, true, true⟩ (fun i => if i = 2 then some () else none)).1 =
      stageNames.take (2 + 1)) :=
  ⟨⟨by omega, rfl, by decide⟩,
    pipeline_fail_fast (fun i => if i = 2 then some () else none) 2 ()
      (by omega) rfl (by decide)⟩

/-- C8: for every run — whatever the setup outcomes and stage results — the
successive progress-bar values are non-decreasing and bounded by 100, the
four declared stage weights sum to 100, and the value 100 is only ever
reached in a run in which all four stages completed. -/
theorem progress_monotone_bounded {ε : Type} (w : SetupWorld) (act : Nat → Option ε) :
    List.Chain' (· ≤ ·) (barSets (mainRun w act).1)
    ∧ (∀ v ∈ barSets (mainRun w act).1, v ≤ 100)
    ∧ (stageTasks.map Prod.snd).sum = 100
    ∧ (100 ∈ barSets (mainRun w act).1 → runEvents (mainRun w act).1 = stageNames) := by
  obtain ⟨pe, mk, cl, cp⟩ := w
  cases pe with
  | false => simp [mainRun, barSets, runEvents, stageTasks]
  | true =>
    cases mk with
    | false => simp [mainRun, barSets, runEvents, stageTasks]
    | true =>
      cases cl with
      | false => simp [mainRun, barSets, runEvents, stageTasks]
      | true =>
        cases cp with
        | false => simp [mainRun, barSets, runEvents, stageTasks]
        | true =>
          cases h0 : act 0 with
          | some e0 =>
            simp [mainRun, taskLoop, stageTasks, stageNames, barSets, runEvents, h0]
          | none =>
            cases h1 : act 1 with
            | some e1 =>
              simp [mainRun, taskLoop, stageTasks, stageNames, barSets, runEvents, h0, h1]
            | none =>
              cases h2 : act 2 with
              | some e2 =>
                simp [mainRun, taskLoop, stageTasks, stageNames, barSets, runEvents,
                  h0, h1, h2]
              | none =>
                cases h3 : act 3 with
                | some e3 =>
                  simp [mainRun, taskLoop, stageTasks, stageNames, barSets, runEvents,
                    h0, h1, h2, h3]
                | none =>
                  simp [mainRun, taskLoop, stageTasks, stageNames, barSets, runEvents,
                    h0, h1, h2, h3]

/-- Witness for C8: the full-success run reaches progress 100 and has run
all four stages. -/
theorem progress_monotone_bounded_witness :
    (100 ∈ barSets (mainRun (ε := Unit) ⟨true, true, true, true⟩ (fun _ => none)).1)
    ∧ runEvents (mainRun (ε := Unit) ⟨true, true, true, true⟩ (fun _ => none)).1 =
      stageNames :=
  ⟨by decide,
    (progress_monotone_bounded ⟨true, true, true, true⟩ (fun _ => none)).2.2.2 (by decide)⟩

/-- Witness for the amended C10 at a concrete input. -/
theorem osv_report_created_before_launch_witness :
    (["scan-results/sbom.xml"].contains "scan-results/sbom.xml" = true)
    ∧ (((runOSVScanner ["scan-results/sbom.xml"] "scan-results/sbom.xml" false true
          (some RunError.launchFailure)).1.contains OsvEv.launchScanner = true →
        (runOSVScanner ["scan-results/sbom.xml"] "scan-results/sbom.xml" false true
          (some RunError.launchFailure)).1.take 3 =
          [OsvEv.statSbom, OsvEv.createReport, OsvEv.launchScanner])
    ∧ (true = true → reportPath "scan-results/sbom.xml" ∈
        (runOSVScanner ["scan-results/sbom.xml"] "scan-results/sbom.xml" false true
          (some RunError.launchFailure)).2.1)) :=
  ⟨by decide,
    osv_report_created_before_launch ["scan-results/sbom.xml"] "scan-results/sbom.xml"
      false true (some RunError.launchFailure) (by decide)⟩
